import Mathlib

/-!
Verification of the mysqltest library (cybozu-go/mysqltest) against its
natural-language specification.  The Go source is shallowly embedded:

* `Mysqltest` models `src/mysqltest.go`: the configuration options, the
  random identifier generator (`crypto/rand` bytes fed through unpadded
  standard base32 and lowercased), the availability prober, provisioning,
  teardown and the `SetupDatabase` control flow.  Database effects are
  abstracted by oracles: `ping : Nat → Bool` gives the outcome of the n-th
  liveness check, and `er`/`et : String → Except String Unit` give the
  outcome of executing a SQL statement on the root (administrative) and the
  scoped test connection.  `SetupDatabase` returns the ordered list of
  observable events together with the returned connection (`none` models
  `t.Fatalf`, which aborts the test).
* `MysqltestEnv` models the older variant of the package kept in the
  repository (src/unnamed/part_001), whose configuration is resolved from
  environment variables with remappable names; the environment is an
  explicit map `String → String` (`""` = unset, as in `os.Getenv`).
-/

namespace Mysqltest

/-- Fields of `mysql.Config` (go-sql-driver) that the library touches or that
a caller's `ModifyMySQLConfig` mutation may touch.  Defaults are the zero
values produced by `mysql.NewConfig()` (with `AllowNativePasswords: true`). -/
structure MySQLConfig where
  User : String := ""
  Passwd : String := ""
  Net : String := ""
  Addr : String := ""
  DBName : String := ""
  TimeoutMs : Nat := 0
  ReadTimeoutMs : Nat := 0
  WriteTimeoutMs : Nat := 0
  MultiStatements : Bool := false
  ParseTime : Bool := false
  AllowNativePasswords : Bool := true
deriving DecidableEq, Repr

/-- `mysql.NewConfig()`. -/
def NewConfig : MySQLConfig := {}

/-- The `Config` struct of src/mysqltest.go. -/
structure Config where
  RootUser : String
  RootPassword : String
  PreserveTestDB : Bool
  Verbose : Bool
  MySQLConfig : MySQLConfig
  Queries : List String
deriving DecidableEq, Repr

/-- The Go `Option` type (`func(*Config)`), modelled functionally. -/
abbrev Opt := Config → Config

/-- `newConfig` of src/mysqltest.go: defaults, then every option applied in
order. -/
def newConfig (options : List Opt) : Config :=
  options.foldl (fun c o => o c)
    { RootUser := "root", RootPassword := "root", PreserveTestDB := false,
      Verbose := false, MySQLConfig := NewConfig, Queries := [] }

/-- Option `RootUserCredentials`. -/
def RootUserCredentials (user password : String) : Opt :=
  fun c => { c with RootUser := user, RootPassword := password }

/-- Option `PreserveTestDB`. -/
def PreserveTestDB (preserve : Bool) : Opt :=
  fun c => { c with PreserveTestDB := preserve }

/-- Option `Verbose`. -/
def Verbose : Opt :=
  fun c => { c with Verbose := true }

/-- Option `ModifyMySQLConfig`: applies the caller's mutation to the
underlying `mysql.Config`. -/
def ModifyMySQLConfig (f : MySQLConfig → MySQLConfig) : Opt :=
  fun c => { c with MySQLConfig := f c.MySQLConfig }

/-- Option `Query`: appends one statement to the query list. -/
def Query (query : String) : Opt :=
  fun c => { c with Queries := c.Queries ++ [query] }

/-- Option `Queries`: appends a sequence of statements. -/
def Queries (queries : List String) : Opt :=
  fun c => { c with Queries := c.Queries ++ queries }

/-- The `Conn` struct returned by `SetupDatabase` (the `*sql.DB` handle
itself is not modelled). -/
structure Conn where
  Schema : String
  User : String
  Password : String
deriving DecidableEq, Repr

/-! ### Random identifier generation (`randomSuffix`)

`randomSuffix` reads 7 bytes from `crypto/rand`, encodes them with
`base32.StdEncoding.WithPadding(base32.NoPadding)` and lowercases the
result.  RFC 4648 base32 turns the byte stream into a most-significant-bit
first bit stream, chops it into 5-bit groups (the last group zero-padded on
the right) and maps each group into the standard alphabet. -/

/-- The standard base32 alphabet used by `encoding/base32.StdEncoding`. -/
def base32Alphabet : List Char := "ABCDEFGHIJKLMNOPQRSTUVWXYZ234567".toList

/-- The eight bits of one byte, most significant first. -/
def byteBits (b : Nat) : List Bool :=
  [b.testBit 7, b.testBit 6, b.testBit 5, b.testBit 4,
   b.testBit 3, b.testBit 2, b.testBit 1, b.testBit 0]

/-- The bit stream of a byte list. -/
def bytesToBits : List Nat → List Bool
  | [] => []
  | b :: rest => byteBits b ++ bytesToBits rest

/-- Fueled 5-bit grouping (fuel bounds the number of steps so the recursion
is structural and kernel-reducible). -/
def chunk5Aux : Nat → List Bool → List (List Bool)
  | 0, _ => []
  | _ + 1, [] => []
  | fuel + 1, b :: rest => ((b :: rest).take 5) :: chunk5Aux fuel ((b :: rest).drop 5)

/-- The 5-bit groups of a bit list (the last group may be shorter). -/
def chunk5 (l : List Bool) : List (List Bool) := chunk5Aux l.length l

/-- Zero-pad a final group to 5 bits on the right. -/
def pad5 (c : List Bool) : List Bool := c ++ List.replicate (5 - c.length) false

/-- The value of a bit list, most significant bit first. -/
def bitsVal (l : List Bool) : Nat :=
  l.foldl (fun acc b => 2 * acc + (if b then 1 else 0)) 0

/-- Unpadded standard base32 of a byte list. -/
def base32EncodeNoPad (bs : List Nat) : List Char :=
  (chunk5 (bytesToBits bs)).map (fun c => base32Alphabet.getD (bitsVal (pad5 c)) 'A')

/-- `randomSuffix` of src/mysqltest.go applied to the 7 bytes read from
`crypto/rand`: unpadded standard base32, lowercased. -/
def randomSuffix (bs : List Nat) : String :=
  String.mk ((base32EncodeNoPad bs).map Char.toLower)

/-- `randomSuffix` with the random source made explicit: `none` models
`rand.Read` failing, on which the Go code panics (no retry, the whole
provisioning attempt dies); the panic is modelled by propagating `none`. -/
def randomSuffixFromSource (src : Option (List Nat)) : Option String :=
  match src with
  | none => none
  | some bs => some (randomSuffix bs)

/-- Lowercase-alphanumeric test used to state identifier safety. -/
def isLowerAlnum (c : Char) : Bool :=
  ('a' ≤ c && c ≤ 'z') || ('0' ≤ c && c ≤ '9')

/-! ### Availability prober (`waitUntilDatabaseAvailable`) -/

/-- `maxPingRetries` of src/mysqltest.go. -/
def maxPingRetries : Nat := 20

/-- `pingInterval` of src/mysqltest.go, in milliseconds. -/
def pingIntervalMs : Nat := 500

/-- The retry loop of `waitUntilDatabaseAvailable`: `i` is the index of the
next attempt, `remaining` the attempts left, `sleeps` the number of
`pingInterval` sleeps performed so far (the Go loop sleeps after every
failed attempt, including the last one). -/
def waitAux (ping : Nat → Bool) : Nat → Nat → Nat → Except String Unit × Nat
  | _, 0, sleeps => (Except.error "failed to connect to the database", sleeps)
  | i, remaining + 1, sleeps =>
    if ping i then (Except.ok (), sleeps) else waitAux ping (i + 1) remaining (sleeps + 1)

/-- `waitUntilDatabaseAvailable` of src/mysqltest.go; the second component
counts the 500 ms sleeps performed. -/
def waitUntilDatabaseAvailable (ping : Nat → Bool) : Except String Unit × Nat :=
  waitAux ping 0 maxPingRetries 0

/-! ### The SQL statements the library issues -/

/-- The `CREATE USER` statement of `createRandomUser`. -/
def createUserStmt (user passwd : String) : String :=
  "CREATE USER '" ++ user ++ "'@'%' IDENTIFIED BY '" ++ passwd ++ "'"

/-- The `CREATE DATABASE` statement of `createRandomSchema`. -/
def createDatabaseStmt (name : String) : String :=
  "CREATE DATABASE `" ++ name ++ "`"

/-- The `GRANT` statement of `grantAllPrivileges`. -/
def grantStmt (dbName user : String) : String :=
  "GRANT ALL ON `" ++ dbName ++ "`.* TO '" ++ user ++ "'@'%'"

/-- The privilege-reload statement of `grantAllPrivileges`. -/
def flushStmt : String := "FLUSH PRIVILEGES"

/-- The `DROP USER` statement of `teardown`. -/
def dropUserStmt (user : String) : String :=
  "DROP USER '" ++ user ++ "'@'%'"

/-- The `DROP DATABASE` statement of `teardown`. -/
def dropDatabaseStmt (name : String) : String :=
  "DROP DATABASE `" ++ name ++ "`"

/-! ### Provisioning and teardown -/

/-- `createRandomUser` of src/mysqltest.go: generates the user name (with
the fixed `mysqltest_` prefix) and password from two 7-byte reads, issues
`CREATE USER`; returns the statements issued and the result. -/
def createRandomUser (er : String → Except String Unit) (b1 b2 : List Nat) :
    List String × Except String (String × String) :=
  let dbUser := "mysqltest_" ++ randomSuffix b1
  let dbPassword := randomSuffix b2
  let query := createUserStmt dbUser dbPassword
  match er query with
  | Except.error e => ([query], Except.error e)
  | Except.ok _ => ([query], Except.ok (dbUser, dbPassword))

/-- `createRandomSchema` of src/mysqltest.go. -/
def createRandomSchema (er : String → Except String Unit) (b : List Nat) :
    List String × Except String String :=
  let dbName := "mysqltest_" ++ randomSuffix b
  let query := createDatabaseStmt dbName
  match er query with
  | Except.error e => ([query], Except.error e)
  | Except.ok _ => ([query], Except.ok dbName)

/-- `grantAllPrivileges` of src/mysqltest.go: `GRANT ALL` scoped to the new
database, then `FLUSH PRIVILEGES`; stops at the first failure. -/
def grantAllPrivileges (er : String → Except String Unit) (user dbName : String) :
    List String × Except String Unit :=
  let query := grantStmt dbName user
  match er query with
  | Except.error e => ([query], Except.error e)
  | Except.ok _ =>
    match er flushStmt with
    | Except.error e => ([query, flushStmt], Except.error e)
    | Except.ok _ => ([query, flushStmt], Except.ok ())

/-- `teardown` of src/mysqltest.go: `DROP USER`, then (only if that
succeeded) `DROP DATABASE`; returns the statements issued and the result. -/
def teardown (er : String → Except String Unit) (user dbName : String) :
    List String × Except String Unit :=
  let d1 := dropUserStmt user
  match er d1 with
  | Except.error e => ([d1], Except.error e)
  | Except.ok _ =>
    let d2 := dropDatabaseStmt dbName
    match er d2 with
    | Except.error e => ([d1, d2], Except.error e)
    | Except.ok _ => ([d1, d2], Except.ok ())

/-! ### The registered cleanup (the closure passed to `t.Cleanup`) -/

/-- Observable events of the registered cleanup closure. -/
inductive CEvent where
  | openAdmin
  | note (msg : String)
  | dropStmt (q : String)
  | hardFail (msg : String)
deriving DecidableEq, Repr

/-- The diagnostic note logged when the test database is preserved. -/
def preservedNote (schema user : String) : String :=
  "mysqltest: database '" ++ schema ++ "' and user '" ++ user ++ "' are preserved"

/-- The cleanup closure registered by `SetupDatabase` (src/mysqltest.go
lines 165-182): reopen an administrative connection, return after an
optional note if `PreserveTestDB` is set, otherwise run `teardown` and turn
its failure into a hard test failure (`t.Fatalf`). -/
def cleanupRun (preserve verbose : Bool) (openResult : Except String Unit)
    (er : String → Except String Unit) (user schema : String) : List CEvent :=
  match openResult with
  | Except.error e => [CEvent.hardFail ("mysqltest: " ++ e)]
  | Except.ok _ =>
    if preserve then
      CEvent.openAdmin :: (if verbose then [CEvent.note (preservedNote schema user)] else [])
    else
      let td := teardown er user schema
      CEvent.openAdmin :: td.1.map CEvent.dropStmt ++
        (match td.2 with
         | Except.error e => [CEvent.hardFail ("mysqltest: failed to teardown: " ++ e)]
         | Except.ok _ => [])

/-- The `DROP` statements a cleanup trace issues. -/
def dropStmtsOf (evs : List CEvent) : List String :=
  evs.filterMap (fun e => match e with | CEvent.dropStmt q => some q | _ => none)

/-! ### `SetupDatabase` -/

/-- Observable events of `SetupDatabase`, in program order. -/
inductive Event where
  | openRoot (addr user : String)
  | execRoot (q : String)
  | registerTeardown
  | openTest (addr user db : String)
  | execTest (q : String)
  | registerCloseTestDB
  | fatal (msg : String)
deriving DecidableEq, Repr

/-- The root-connection configuration built by `SetupDatabase` (lines
133-135): the resolved config with `User`/`Passwd` overwritten by the root
credentials. -/
def rootUserConfig (options : List Opt) : Config :=
  let c := newConfig options
  { c with MySQLConfig := { c.MySQLConfig with User := c.RootUser, Passwd := c.RootPassword } }

/-- The test-connection configuration built by `SetupDatabase` (lines
185-188): the resolved config with `User`/`Passwd`/`DBName` overwritten by
the generated identity.  No other `mysql.Config` field is touched. -/
def testUserConfig (options : List Opt) (testUser testPasswd testSchema : String) : Config :=
  let c := newConfig options
  { c with MySQLConfig :=
      { c.MySQLConfig with User := testUser, Passwd := testPasswd, DBName := testSchema } }

/-- The initial-query loop (lines 203-207): execute each statement in order,
stop at the first failure. -/
def runQueries (et : String → Except String Unit) : List String → List Event × Except String Unit
  | [] => ([], Except.ok ())
  | q :: rest =>
    match et q with
    | Except.error e => ([Event.execTest q], Except.error e)
    | Except.ok _ =>
      let r := runQueries et rest
      (Event.execTest q :: r.1, r.2)

/-- `SetupDatabase` of src/mysqltest.go.  `b1 b2 b3` are the three 7-byte
reads of `crypto/rand` (user name, password, schema name); `er`/`et` the
statement oracles of the root and the test connection.  Returns the event
trace and the returned `Conn` (`none` = `t.Fatalf` aborted the test). -/
def SetupDatabase (options : List Opt) (ping : Nat → Bool) (b1 b2 b3 : List Nat)
    (er et : String → Except String Unit) : List Event × Option Conn :=
  let rootCfg := rootUserConfig options
  let openEv := Event.openRoot rootCfg.MySQLConfig.Addr rootCfg.MySQLConfig.User
  match (waitUntilDatabaseAvailable ping).1 with
  | Except.error e => ([openEv, Event.fatal ("mysqltest: " ++ e)], none)
  | Except.ok _ =>
    match createRandomUser er b1 b2 with
    | (qs1, Except.error e) =>
      (openEv :: qs1.map Event.execRoot ++ [Event.fatal ("mysqltest: " ++ e)], none)
    | (qs1, Except.ok (testUser, testPasswd)) =>
      match createRandomSchema er b3 with
      | (qs2, Except.error e) =>
        (openEv :: (qs1 ++ qs2).map Event.execRoot ++ [Event.fatal ("mysqltest: " ++ e)], none)
      | (qs2, Except.ok testSchema) =>
        match grantAllPrivileges er testUser testSchema with
        | (qs3, Except.error e) =>
          (openEv :: (qs1 ++ qs2 ++ qs3).map Event.execRoot ++
            [Event.fatal ("mysqltest: " ++ e)], none)
        | (qs3, Except.ok _) =>
          let tCfg := testUserConfig options testUser testPasswd testSchema
          let openTEv := Event.openTest tCfg.MySQLConfig.Addr tCfg.MySQLConfig.User
            tCfg.MySQLConfig.DBName
          match runQueries et tCfg.Queries with
          | (tevs, Except.error e) =>
            (openEv :: (qs1 ++ qs2 ++ qs3).map Event.execRoot ++
              [Event.registerTeardown, openTEv] ++ tevs ++
              [Event.fatal ("mysqltest: " ++ e)], none)
          | (tevs, Except.ok _) =>
            (openEv :: (qs1 ++ qs2 ++ qs3).map Event.execRoot ++
              [Event.registerTeardown, openTEv] ++ tevs ++ [Event.registerCloseTestDB],
             some { Schema := testSchema, User := testUser, Password := testPasswd })

/-- The statements a trace executes on the root (administrative) connection. -/
def rootStmts (evs : List Event) : List String :=
  evs.filterMap (fun e => match e with | Event.execRoot q => some q | _ => none)

/-- The statements a trace executes on the scoped test connection. -/
def testStmts (evs : List Event) : List String :=
  evs.filterMap (fun e => match e with | Event.execTest q => some q | _ => none)

/-- The statements actually dispatched when a list is executed in order and
execution stops at (but includes) the first failing statement. -/
def issuedUntilFirstFailure (ex : String → Except String Unit) : List String → List String
  | [] => []
  | q :: rest =>
    match ex q with
    | Except.error _ => [q]
    | Except.ok _ => q :: issuedUntilFirstFailure ex rest

/-- The error of the first failing statement of a list, if any. -/
def firstFailure? (ex : String → Except String Unit) : List String → Option String
  | [] => none
  | q :: rest =>
    match ex q with
    | Except.error e => some e
    | Except.ok _ => firstFailure? ex rest

/-- The four provisioning statements `SetupDatabase` derives from the three
random reads, in issue order. -/
def provisionStmts (b1 b2 b3 : List Nat) : List String :=
  [createUserStmt ("mysqltest_" ++ randomSuffix b1) (randomSuffix b2),
   createDatabaseStmt ("mysqltest_" ++ randomSuffix b3),
   grantStmt ("mysqltest_" ++ randomSuffix b3) ("mysqltest_" ++ randomSuffix b1),
   flushStmt]

end Mysqltest

namespace MysqltestEnv

/-- Default administrative host of src/unnamed/part_001. -/
def defaultMySQLHost : String := "127.0.0.1"

/-- Default administrative port of src/unnamed/part_001. -/
def defaultMySQLPort : String := "3306"

/-- Default administrative user of src/unnamed/part_001. -/
def defaultMySQLRootUser : String := "root"

/-- Default administrative password of src/unnamed/part_001. -/
def defaultMySQLRootPassword : String := "root"

/-- The fixed name of the preserve environment variable of
src/unnamed/part_001 (no option remaps it). -/
def preserveTestDBEnv : String := "PRESERVE_TEST_DB"

/-- The `Config` struct of src/unnamed/part_001: remappable environment
variable names plus the driver config and the initial queries. -/
structure Config where
  HostEnv : String
  PortEnv : String
  RootUserEnv : String
  RootPasswordEnv : String
  MySQLConfig : Mysqltest.MySQLConfig
  InitialQueries : List String
deriving DecidableEq, Repr

/-- The `Option` type of src/unnamed/part_001, modelled functionally. -/
abbrev Opt := Config → Config

/-- `newConfig` of src/unnamed/part_001. -/
def newConfig (options : List Opt) : Config :=
  options.foldl (fun c o => o c)
    { HostEnv := "MYSQL_HOST", PortEnv := "MYSQL_PORT",
      RootUserEnv := "MYSQL_ROOT_USER", RootPasswordEnv := "MYSQL_ROOT_PASSWORD",
      MySQLConfig := Mysqltest.NewConfig, InitialQueries := [] }

/-- Option `SetHostEnv`. -/
def SetHostEnv (env : String) : Opt := fun c => { c with HostEnv := env }

/-- Option `SetPortEnv`. -/
def SetPortEnv (env : String) : Opt := fun c => { c with PortEnv := env }

/-- Option `SetRootUserEnv`. -/
def SetRootUserEnv (env : String) : Opt := fun c => { c with RootUserEnv := env }

/-- Option `SetRootPasswordEnv`. -/
def SetRootPasswordEnv (env : String) : Opt := fun c => { c with RootPasswordEnv := env }

/-- Option `ModifyMySQLConfig` of src/unnamed/part_001. -/
def ModifyMySQLConfig (f : Mysqltest.MySQLConfig → Mysqltest.MySQLConfig) : Opt :=
  fun c => { c with MySQLConfig := f c.MySQLConfig }

/-- Option `SetInitialQueries` of src/unnamed/part_001 (replaces the list). -/
def SetInitialQueries (queries : List String) : Opt :=
  fun c => { c with InitialQueries := queries }

/-- `getEnv` of src/unnamed/part_001: the environment value, or the default
when the variable is unset or empty.  The environment is a map
`String → String` with `""` for unset, as in `os.Getenv`. -/
def getEnv (env : String → String) (key defaultValue : String) : String :=
  if env key = "" then defaultValue else env key

/-- `net.JoinHostPort`: bracket the host when it holds a colon (IPv6). -/
def joinHostPort (host port : String) : String :=
  if host.data.contains ':' then "[" ++ host ++ "]:" ++ port else host ++ ":" ++ port

/-- `overrideConfig` of src/unnamed/part_001 (lines 212-220): `Addr` from the
host/port environment variables (remapped names honoured), `User`, `Passwd`
and `DBName` from the arguments. -/
def overrideConfig (env : String → String) (config : Config)
    (user password schema : String) : Config :=
  let mysqlHost := getEnv env config.HostEnv defaultMySQLHost
  let mysqlPort := getEnv env config.PortEnv defaultMySQLPort
  { config with MySQLConfig :=
      { config.MySQLConfig with
        Addr := joinHostPort mysqlHost mysqlPort,
        User := user, Passwd := password, DBName := schema } }

/-- The administrative configuration `SetupDatabase` of src/unnamed/part_001
resolves (lines 119-125): the root user and password come from the (possibly
remapped) environment variables, with `root`/`root` as defaults. -/
def resolveRootConfig (env : String → String) (options : List Opt) : Config :=
  let c := newConfig options
  overrideConfig env c
    (getEnv env c.RootUserEnv defaultMySQLRootUser)
    (getEnv env c.RootPasswordEnv defaultMySQLRootPassword)
    ""

/-- The cleanup closure of src/unnamed/part_001 (lines 154-168): it decides
preservation by reading the fixed `PRESERVE_TEST_DB` environment variable at
the time the cleanup runs (`envAtCleanup`), not from the resolved
configuration. -/
def cleanupRun (envAtCleanup : String → String) (openResult : Except String Unit)
    (er : String → Except String Unit) (user schema : String) : List Mysqltest.CEvent :=
  match openResult with
  | Except.error e => [Mysqltest.CEvent.hardFail ("mysqltest: " ++ e)]
  | Except.ok _ =>
    if envAtCleanup preserveTestDBEnv ≠ "" then
      [Mysqltest.CEvent.openAdmin, Mysqltest.CEvent.note (Mysqltest.preservedNote schema user)]
    else
      let td := Mysqltest.teardown er user schema
      Mysqltest.CEvent.openAdmin :: td.1.map Mysqltest.CEvent.dropStmt ++
        (match td.2 with
         | Except.error e =>
           [Mysqltest.CEvent.hardFail ("mysqltest: failed to teardown: " ++ e)]
         | Except.ok _ => [])

end MysqltestEnv

namespace Mysqltest

/-! ### Helper lemmas: the identifier generator -/

theorem bytesToBits_length (bs : List Nat) : (bytesToBits bs).length = 8 * bs.length := by
  induction bs with
  | nil => rfl
  | cons b rest ih => simp [bytesToBits, byteBits, ih]; omega

theorem chunk5Aux_length :
    ∀ (fuel : Nat) (l : List Bool), l.length ≤ fuel →
      (chunk5Aux fuel l).length = (l.length + 4) / 5 := by
  intro fuel
  induction fuel with
  | zero =>
    intro l hl
    have : l = [] := List.eq_nil_of_length_eq_zero (Nat.le_zero.mp hl)
    subst this
    rfl
  | succ fuel ih =>
    intro l hl
    cases l with
    | nil => rfl
    | cons b rest =>
      have hdrop : ((b :: rest).drop 5).length = (b :: rest).length - 5 := by
        simp [List.length_drop]
      have hle : ((b :: rest).drop 5).length ≤ fuel := by
        rw [hdrop]
        simp only [List.length_cons] at hl ⊢
        omega
      simp only [chunk5Aux, List.length_cons, ih _ hle, hdrop]
      omega

theorem base32_char_safe (n : Nat) :
    isLowerAlnum (Char.toLower (base32Alphabet.getD n 'A')) = true := by
  by_cases h : n < 32
  · have hall : ∀ m, m < 32 → isLowerAlnum (Char.toLower (base32Alphabet.getD m 'A')) = true := by
      decide
    exact hall n h
  · have hlen : base32Alphabet.length ≤ n := by
      have : base32Alphabet.length = 32 := by decide
      omega
    rw [List.getD_eq_default _ _ hlen]
    decide

theorem randomSuffix_length (bs : List Nat) :
    (randomSuffix bs).length = (8 * bs.length + 4) / 5 := by
  have hb := bytesToBits_length bs
  have hc := chunk5Aux_length (bytesToBits bs).length (bytesToBits bs) (Nat.le_refl _)
  rw [hb] at hc
  simp [randomSuffix, base32EncodeNoPad, chunk5, String.length, hb, hc]

theorem randomSuffix_chars (bs : List Nat) :
    ∀ c ∈ (randomSuffix bs).data, isLowerAlnum c = true := by
  intro c hc
  simp only [randomSuffix, base32EncodeNoPad, List.map_map] at hc
  rcases List.mem_map.mp hc with ⟨grp, _, hgrp⟩
  simpa [← hgrp] using base32_char_safe (bitsVal (pad5 grp))

/-! ### Helper lemmas: the availability prober -/

theorem waitAux_exhaust (ping : Nat → Bool) :
    ∀ (r i s : Nat), (∀ j, j < r → ping (i + j) = false) →
      waitAux ping i r s = (Except.error "failed to connect to the database", s + r) := by
  intro r
  induction r with
  | zero => intro i s _; simp [waitAux]
  | succ r ih =>
    intro i s h
    have h0 : ping i = false := by simpa using h 0 (Nat.succ_pos r)
    have hrest : ∀ j, j < r → ping (i + 1 + j) = false := by
      intro j hj
      have := h (j + 1) (by omega)
      simpa [Nat.add_comm, Nat.add_left_comm, Nat.add_assoc] using this
    have hadd : s + 1 + r = s + (r + 1) := by omega
    simp only [waitAux, h0, Bool.false_eq_true, if_false, ih (i + 1) (s + 1) hrest, hadd]

theorem waitAux_success (ping : Nat → Bool) :
    ∀ (k r i s : Nat), k < r → (∀ j, j < k → ping (i + j) = false) → ping (i + k) = true →
      waitAux ping i r s = (Except.ok (), s + k) := by
  intro k
  induction k with
  | zero =>
    intro r i s hr _ hs
    cases r with
    | zero => exact absurd hr (by omega)
    | succ r =>
      have hsi : ping i = true := by simpa using hs
      simp [waitAux, hsi]
  | succ k ih =>
    intro r i s hr hf hs
    cases r with
    | zero => exact absurd hr (by omega)
    | succ r =>
      have h0 : ping i = false := by simpa using hf 0 (Nat.succ_pos k)
      have hf' : ∀ j, j < k → ping (i + 1 + j) = false := by
        intro j hj
        have := hf (j + 1) (by omega)
        simpa [Nat.add_comm, Nat.add_left_comm, Nat.add_assoc] using this
      have hs' : ping (i + 1 + k) = true := by
        simpa [Nat.add_comm, Nat.add_left_comm, Nat.add_assoc] using hs
      have hrec := ih r (i + 1) (s + 1) (by omega) hf' hs'
      have hadd : s + 1 + k = s + (k + 1) := by omega
      simp only [waitAux, h0, Bool.false_eq_true, if_false, hrec, hadd]

theorem waitAux_congr (ping ping' : Nat → Bool) :
    ∀ (r i s : Nat), (∀ j, j < r → ping (i + j) = ping' (i + j)) →
      waitAux ping i r s = waitAux ping' i r s := by
  intro r
  induction r with
  | zero => intro i s _; rfl
  | succ r ih =>
    intro i s h
    have h0 : ping i = ping' i := by simpa using h 0 (Nat.succ_pos r)
    have hrest : ∀ j, j < r → ping (i + 1 + j) = ping' (i + 1 + j) := by
      intro j hj
      have := h (j + 1) (by omega)
      simpa [Nat.add_comm, Nat.add_left_comm, Nat.add_assoc] using this
    simp only [waitAux, h0]
    rcases hp : ping' i with _ | _ <;> simp [hp, ih (i + 1) (s + 1) hrest]

/-! ### Helper lemmas: query loops and traces -/

theorem runQueries_events (et : String → Except String Unit) :
    ∀ qs : List String,
      (runQueries et qs).1 = (issuedUntilFirstFailure et qs).map Event.execTest := by
  intro qs
  induction qs with
  | nil => rfl
  | cons q rest ih =>
    rcases h : et q with e | u <;>
      simp [runQueries, issuedUntilFirstFailure, h, ih]

theorem runQueries_result (et : String → Except String Unit) :
    ∀ qs : List String,
      (runQueries et qs).2 =
        (match firstFailure? et qs with
         | some e => Except.error e
         | none => Except.ok ()) := by
  intro qs
  induction qs with
  | nil => rfl
  | cons q rest ih =>
    rcases h : et q with e | u <;>
      simp [runQueries, firstFailure?, h, ih]

theorem testStmts_append (l1 l2 : List Event) :
    testStmts (l1 ++ l2) = testStmts l1 ++ testStmts l2 := by
  simp [testStmts]

theorem rootStmts_append (l1 l2 : List Event) :
    rootStmts (l1 ++ l2) = rootStmts l1 ++ rootStmts l2 := by
  simp [rootStmts]

theorem testStmts_cons_execRoot (q : String) (l : List Event) :
    testStmts (Event.execRoot q :: l) = testStmts l := rfl

theorem testStmts_cons_execTest (q : String) (l : List Event) :
    testStmts (Event.execTest q :: l) = q :: testStmts l := rfl

theorem rootStmts_cons_execRoot (q : String) (l : List Event) :
    rootStmts (Event.execRoot q :: l) = q :: rootStmts l := rfl

theorem rootStmts_cons_execTest (q : String) (l : List Event) :
    rootStmts (Event.execTest q :: l) = rootStmts l := rfl

theorem rootStmts_nil : rootStmts [] = [] := rfl

theorem testStmts_nil : testStmts [] = [] := rfl

theorem rootStmts_cons_openRoot (a u : String) (l : List Event) :
    rootStmts (Event.openRoot a u :: l) = rootStmts l := rfl

theorem rootStmts_cons_openTest (a u d : String) (l : List Event) :
    rootStmts (Event.openTest a u d :: l) = rootStmts l := rfl

theorem rootStmts_cons_registerTeardown (l : List Event) :
    rootStmts (Event.registerTeardown :: l) = rootStmts l := rfl

theorem rootStmts_cons_registerClose (l : List Event) :
    rootStmts (Event.registerCloseTestDB :: l) = rootStmts l := rfl

theorem rootStmts_cons_fatal (m : String) (l : List Event) :
    rootStmts (Event.fatal m :: l) = rootStmts l := rfl

theorem testStmts_cons_openRoot (a u : String) (l : List Event) :
    testStmts (Event.openRoot a u :: l) = testStmts l := rfl

theorem testStmts_cons_openTest (a u d : String) (l : List Event) :
    testStmts (Event.openTest a u d :: l) = testStmts l := rfl

theorem testStmts_cons_registerTeardown (l : List Event) :
    testStmts (Event.registerTeardown :: l) = testStmts l := rfl

theorem testStmts_cons_registerClose (l : List Event) :
    testStmts (Event.registerCloseTestDB :: l) = testStmts l := rfl

theorem testStmts_cons_fatal (m : String) (l : List Event) :
    testStmts (Event.fatal m :: l) = testStmts l := rfl

theorem testStmts_map_execRoot (l : List String) :
    testStmts (l.map Event.execRoot) = [] := by
  induction l with
  | nil => rfl
  | cons q rest ih => rw [List.map_cons, testStmts_cons_execRoot, ih]

theorem testStmts_map_execTest (l : List String) :
    testStmts (l.map Event.execTest) = l := by
  induction l with
  | nil => rfl
  | cons q rest ih => rw [List.map_cons, testStmts_cons_execTest, ih]

theorem rootStmts_map_execRoot (l : List String) :
    rootStmts (l.map Event.execRoot) = l := by
  induction l with
  | nil => rfl
  | cons q rest ih => rw [List.map_cons, rootStmts_cons_execRoot, ih]

theorem rootStmts_map_execTest (l : List String) :
    rootStmts (l.map Event.execTest) = [] := by
  induction l with
  | nil => rfl
  | cons q rest ih => rw [List.map_cons, rootStmts_cons_execTest, ih]

theorem testUserConfig_Queries (options : List Opt) (u p s : String) :
    (testUserConfig options u p s).Queries = (newConfig options).Queries := rfl

theorem testUserConfig_Addr (options : List Opt) (u p s : String) :
    (testUserConfig options u p s).MySQLConfig.Addr = (newConfig options).MySQLConfig.Addr := rfl

theorem testUserConfig_User (options : List Opt) (u p s : String) :
    (testUserConfig options u p s).MySQLConfig.User = u := rfl

theorem testUserConfig_DBName (options : List Opt) (u p s : String) :
    (testUserConfig options u p s).MySQLConfig.DBName = s := rfl

/-- Shape of a `SetupDatabase` run whose probe and whose provisioning
statements all succeed: the trace is the root open, the four provisioning
statements, the teardown registration, the test open, the initial-query
events, and then either the fatal event of the first failing query or the
close registration; the result is the generated identity unless a query
failed. -/
theorem setup_shape_ok (options : List Opt) (ping : Nat → Bool) (b1 b2 b3 : List Nat)
    (er et : String → Except String Unit)
    (hping : (waitUntilDatabaseAvailable ping).1 = Except.ok ())
    (hroot : ∀ q, er q = Except.ok ()) :
    SetupDatabase options ping b1 b2 b3 er et =
      (Event.openRoot (rootUserConfig options).MySQLConfig.Addr
          (rootUserConfig options).MySQLConfig.User ::
        (provisionStmts b1 b2 b3).map Event.execRoot ++
        [Event.registerTeardown,
         Event.openTest (newConfig options).MySQLConfig.Addr
           ("mysqltest_" ++ randomSuffix b1) ("mysqltest_" ++ randomSuffix b3)] ++
        (runQueries et (newConfig options).Queries).1 ++
        (match (runQueries et (newConfig options).Queries).2 with
         | Except.error e => [Event.fatal ("mysqltest: " ++ e)]
         | Except.ok _ => [Event.registerCloseTestDB]),
       match (runQueries et (newConfig options).Queries).2 with
       | Except.error _ => none
       | Except.ok _ => some { Schema := "mysqltest_" ++ randomSuffix b3,
                               User := "mysqltest_" ++ randomSuffix b1,
                               Password := randomSuffix b2 }) := by
  have hcu : createRandomUser er b1 b2 =
      ([createUserStmt ("mysqltest_" ++ randomSuffix b1) (randomSuffix b2)],
       Except.ok ("mysqltest_" ++ randomSuffix b1, randomSuffix b2)) := by
    simp [createRandomUser, hroot]
  have hcs : createRandomSchema er b3 =
      ([createDatabaseStmt ("mysqltest_" ++ randomSuffix b3)],
       Except.ok ("mysqltest_" ++ randomSuffix b3)) := by
    simp [createRandomSchema, hroot]
  have hg : grantAllPrivileges er ("mysqltest_" ++ randomSuffix b1)
        ("mysqltest_" ++ randomSuffix b3) =
      ([grantStmt ("mysqltest_" ++ randomSuffix b3) ("mysqltest_" ++ randomSuffix b1),
        flushStmt], Except.ok ()) := by
    simp [grantAllPrivileges, hroot]
  rcases hq : runQueries et ((newConfig options).Queries) with ⟨tevs, r⟩
  simp only [SetupDatabase, hping, hcu, hcs, hg, testUserConfig_Queries, testUserConfig_Addr,
    testUserConfig_User, testUserConfig_DBName, hq]
  cases r <;> simp [provisionStmts]

/-! ### Claim C1 -/

/-- C1 counterexample: the claim states that `Addr` of the scoped test
connection's parameter object is overwritten by the core so that a
caller-supplied value is discarded; in src/mysqltest.go it is not: an
`Addr` set through `ModifyMySQLConfig` survives unchanged into the scoped
test connection configuration. -/
theorem claim1_counterexample :
    (testUserConfig [ModifyMySQLConfig (fun m => { m with Addr := "203.0.113.7:4444" })]
        "u" "p" "d").MySQLConfig.Addr = "203.0.113.7:4444" := rfl

/-- C1 amended: for the scoped test connection, `SetupDatabase` overwrites
only `User`, `Passwd` and `DBName` with the generated identity (any caller
mutation of those three is discarded); `Addr` — like every other
`mysql.Config` field — keeps whatever the caller's mutations left in the
resolved configuration. -/
theorem claim1_scoped_config_overrides (options : List Opt) (u p s : String) :
    ((testUserConfig options u p s).MySQLConfig.User = u ∧
     (testUserConfig options u p s).MySQLConfig.Passwd = p ∧
     (testUserConfig options u p s).MySQLConfig.DBName = s) ∧
    ((testUserConfig options u p s).MySQLConfig.Addr = (newConfig options).MySQLConfig.Addr ∧
     (testUserConfig options u p s).MySQLConfig.Net = (newConfig options).MySQLConfig.Net ∧
     (testUserConfig options u p s).MySQLConfig.TimeoutMs =
       (newConfig options).MySQLConfig.TimeoutMs ∧
     (testUserConfig options u p s).MySQLConfig.MultiStatements =
       (newConfig options).MySQLConfig.MultiStatements ∧
     (testUserConfig options u p s).Queries = (newConfig options).Queries) :=
  ⟨⟨rfl, rfl, rfl⟩, ⟨rfl, rfl, rfl, rfl, rfl⟩⟩

/-! ### Claim C4 -/

/-- C4: the availability prober succeeds as soon as one liveness check
succeeds within the budget of `maxPingRetries = 20` attempts, having slept
one fixed `pingIntervalMs = 500` ms interval after each failed attempt (the
sleep count is the pair's second component); when all 20 attempts fail it
returns an error whose message names "failed to connect" (after 20 sleeps);
it never consults the oracle beyond the fixed budget, and it never returns
success when every attempt fails. -/
theorem claim4_prober_retry_budget (ping : Nat → Bool) :
    maxPingRetries = 20 ∧ pingIntervalMs = 500 ∧
    (∀ k, k < maxPingRetries → (∀ j, j < k → ping j = false) → ping k = true →
        waitUntilDatabaseAvailable ping = (Except.ok (), k)) ∧
    ((∀ i, i < maxPingRetries → ping i = false) →
        waitUntilDatabaseAvailable ping =
          (Except.error "failed to connect to the database", maxPingRetries)) ∧
    (∃ rest, "failed to connect to the database" = "failed to connect" ++ rest) ∧
    (∀ ping' : Nat → Bool, (∀ i, i < maxPingRetries → ping i = ping' i) →
        waitUntilDatabaseAvailable ping = waitUntilDatabaseAvailable ping') := by
  refine ⟨rfl, rfl, ?_, ?_, ⟨" to the database", rfl⟩, ?_⟩
  · intro k hk hf hs
    have h := waitAux_success ping k maxPingRetries 0 0 hk (by simpa using hf) (by simpa using hs)
    simpa [waitUntilDatabaseAvailable] using h
  · intro h
    have h2 := waitAux_exhaust ping maxPingRetries 0 0 (by simpa using h)
    simpa [waitUntilDatabaseAvailable] using h2
  · intro ping' h
    exact waitAux_congr ping ping' maxPingRetries 0 0 (by simpa using h)

/-- C4 witness: a probe that first succeeds at attempt 3 returns success
with exactly 3 sleeps. -/
theorem claim4_prober_retry_budget_witness :
    waitUntilDatabaseAvailable (fun n => n == 3) = (Except.ok (), 3) :=
  (claim4_prober_retry_budget (fun n => n == 3)).2.2.1 3 (by decide) (by decide) (by decide)

/-! ### Claim C5 -/

/-- C5: once the probe has succeeded, provisioning issues on the
administrative connection exactly, and in this order: `CREATE USER` (any
host) with the generated name and password, `CREATE DATABASE` with the
generated name, `GRANT ALL` scoped to exactly that database for that user,
and `FLUSH PRIVILEGES` — truncated inclusively at the first failing
statement, with nothing else (in particular no rollback statement) ever
issued; and when some provisioning statement fails, the whole run aborts
fatally with that statement's error and returns no connection. -/
theorem claim5_provisioning_order (options : List Opt) (ping : Nat → Bool)
    (b1 b2 b3 : List Nat) (er et : String → Except String Unit)
    (hping : (waitUntilDatabaseAvailable ping).1 = Except.ok ()) :
    rootStmts (SetupDatabase options ping b1 b2 b3 er et).1 =
      issuedUntilFirstFailure er (provisionStmts b1 b2 b3) ∧
    (∀ e, firstFailure? er (provisionStmts b1 b2 b3) = some e →
        (SetupDatabase options ping b1 b2 b3 er et).1 =
          Event.openRoot (rootUserConfig options).MySQLConfig.Addr
              (rootUserConfig options).MySQLConfig.User ::
            (issuedUntilFirstFailure er (provisionStmts b1 b2 b3)).map Event.execRoot ++
            [Event.fatal ("mysqltest: " ++ e)] ∧
        (SetupDatabase options ping b1 b2 b3 er et).2 = none) := by
  rcases h1 : er (createUserStmt ("mysqltest_" ++ randomSuffix b1) (randomSuffix b2))
      with e1 | w1
  · have hcu : createRandomUser er b1 b2 =
        ([createUserStmt ("mysqltest_" ++ randomSuffix b1) (randomSuffix b2)],
         Except.error e1) := by
      simp [createRandomUser, h1]
    have hiss : issuedUntilFirstFailure er (provisionStmts b1 b2 b3) =
        [createUserStmt ("mysqltest_" ++ randomSuffix b1) (randomSuffix b2)] := by
      simp [issuedUntilFirstFailure, provisionStmts, h1]
    have hff : firstFailure? er (provisionStmts b1 b2 b3) = some e1 := by
      simp [firstFailure?, provisionStmts, h1]
    have hsd : SetupDatabase options ping b1 b2 b3 er et =
        (Event.openRoot (rootUserConfig options).MySQLConfig.Addr
            (rootUserConfig options).MySQLConfig.User ::
          [Event.execRoot (createUserStmt ("mysqltest_" ++ randomSuffix b1) (randomSuffix b2)),
           Event.fatal ("mysqltest: " ++ e1)], none) := by
      simp only [SetupDatabase, hping, hcu]
      simp
    refine ⟨?_, ?_⟩
    · rw [hsd, hiss]
      simp [rootStmts_cons_openRoot, rootStmts_cons_execRoot, rootStmts_cons_fatal,
        rootStmts_nil]
    · intro e he
      rw [hff] at he
      injection he with he'
      subst he'
      rw [hsd, hiss]
      exact ⟨by simp, rfl⟩
  · have hcu : createRandomUser er b1 b2 =
        ([createUserStmt ("mysqltest_" ++ randomSuffix b1) (randomSuffix b2)],
         Except.ok ("mysqltest_" ++ randomSuffix b1, randomSuffix b2)) := by
      simp [createRandomUser, h1]
    rcases h2 : er (createDatabaseStmt ("mysqltest_" ++ randomSuffix b3)) with e2 | w2
    · have hcs : createRandomSchema er b3 =
          ([createDatabaseStmt ("mysqltest_" ++ randomSuffix b3)], Except.error e2) := by
        simp [createRandomSchema, h2]
      have hiss : issuedUntilFirstFailure er (provisionStmts b1 b2 b3) =
          [createUserStmt ("mysqltest_" ++ randomSuffix b1) (randomSuffix b2),
           createDatabaseStmt ("mysqltest_" ++ randomSuffix b3)] := by
        simp [issuedUntilFirstFailure, provisionStmts, h1, h2]
      have hff : firstFailure? er (provisionStmts b1 b2 b3) = some e2 := by
        simp [firstFailure?, provisionStmts, h1, h2]
      have hsd : SetupDatabase options ping b1 b2 b3 er et =
          (Event.openRoot (rootUserConfig options).MySQLConfig.Addr
              (rootUserConfig options).MySQLConfig.User ::
            [Event.execRoot (createUserStmt ("mysqltest_" ++ randomSuffix b1)
                (randomSuffix b2)),
             Event.execRoot (createDatabaseStmt ("mysqltest_" ++ randomSuffix b3)),
             Event.fatal ("mysqltest: " ++ e2)], none) := by
        simp only [SetupDatabase, hping, hcu, hcs]
        simp
      refine ⟨?_, ?_⟩
      · rw [hsd, hiss]
        simp [rootStmts_cons_openRoot, rootStmts_cons_execRoot, rootStmts_cons_fatal,
          rootStmts_nil]
      · intro e he
        rw [hff] at he
        injection he with he'
        subst he'
        rw [hsd, hiss]
        exact ⟨by simp, rfl⟩
    · have hcs : createRandomSchema er b3 =
          ([createDatabaseStmt ("mysqltest_" ++ randomSuffix b3)],
           Except.ok ("mysqltest_" ++ randomSuffix b3)) := by
        simp [createRandomSchema, h2]
      rcases h3 : er (grantStmt ("mysqltest_" ++ randomSuffix b3)
          ("mysqltest_" ++ randomSuffix b1)) with e3 | w3
      · have hg : grantAllPrivileges er ("mysqltest_" ++ randomSuffix b1)
              ("mysqltest_" ++ randomSuffix b3) =
            ([grantStmt ("mysqltest_" ++ randomSuffix b3) ("mysqltest_" ++ randomSuffix b1)],
             Except.error e3) := by
          simp [grantAllPrivileges, h3]
        have hiss : issuedUntilFirstFailure er (provisionStmts b1 b2 b3) =
            [createUserStmt ("mysqltest_" ++ randomSuffix b1) (randomSuffix b2),
             createDatabaseStmt ("mysqltest_" ++ randomSuffix b3),
             grantStmt ("mysqltest_" ++ randomSuffix b3) ("mysqltest_" ++ randomSuffix b1)] := by
          simp [issuedUntilFirstFailure, provisionStmts, h1, h2, h3]
        have hff : firstFailure? er (provisionStmts b1 b2 b3) = some e3 := by
          simp [firstFailure?, provisionStmts, h1, h2, h3]
        have hsd : SetupDatabase options ping b1 b2 b3 er et =
            (Event.openRoot (rootUserConfig options).MySQLConfig.Addr
                (rootUserConfig options).MySQLConfig.User ::
              [Event.execRoot (createUserStmt ("mysqltest_" ++ randomSuffix b1)
                  (randomSuffix b2)),
               Event.execRoot (createDatabaseStmt ("mysqltest_" ++ randomSuffix b3)),
               Event.execRoot (grantStmt ("mysqltest_" ++ randomSuffix b3)
                  ("mysqltest_" ++ randomSuffix b1)),
               Event.fatal ("mysqltest: " ++ e3)], none) := by
          simp only [SetupDatabase, hping, hcu, hcs, hg]
          simp
        refine ⟨?_, ?_⟩
        · rw [hsd, hiss]
          simp [rootStmts_cons_openRoot, rootStmts_cons_execRoot, rootStmts_cons_fatal,
            rootStmts_nil]
        · intro e he
          rw [hff] at he
          injection he with he'
          subst he'
          rw [hsd, hiss]
          exact ⟨by simp, rfl⟩
      · rcases h4 : er flushStmt with e4 | w4
        · have hg : grantAllPrivileges er ("mysqltest_" ++ randomSuffix b1)
                ("mysqltest_" ++ randomSuffix b3) =
              ([grantStmt ("mysqltest_" ++ randomSuffix b3) ("mysqltest_" ++ randomSuffix b1),
                flushStmt], Except.error e4) := by
            simp [grantAllPrivileges, h3, h4]
          have hiss : issuedUntilFirstFailure er (provisionStmts b1 b2 b3) =
              provisionStmts b1 b2 b3 := by
            simp [issuedUntilFirstFailure, provisionStmts, h1, h2, h3, h4]
          have hff : firstFailure? er (provisionStmts b1 b2 b3) = some e4 := by
            simp [firstFailure?, provisionStmts, h1, h2, h3, h4]
          have hsd : SetupDatabase options ping b1 b2 b3 er et =
              (Event.openRoot (rootUserConfig options).MySQLConfig.Addr
                  (rootUserConfig options).MySQLConfig.User ::
                [Event.execRoot (createUserStmt ("mysqltest_" ++ randomSuffix b1)
                    (randomSuffix b2)),
                 Event.execRoot (createDatabaseStmt ("mysqltest_" ++ randomSuffix b3)),
                 Event.execRoot (grantStmt ("mysqltest_" ++ randomSuffix b3)
                    ("mysqltest_" ++ randomSuffix b1)),
                 Event.execRoot flushStmt,
                 Event.fatal ("mysqltest: " ++ e4)], none) := by
            simp only [SetupDatabase, hping, hcu, hcs, hg]
            simp
          refine ⟨?_, ?_⟩
          · rw [hsd, hiss]
            simp [rootStmts_cons_openRoot, rootStmts_cons_execRoot, rootStmts_cons_fatal,
              rootStmts_nil, provisionStmts]
          · intro e he
            rw [hff] at he
            injection he with he'
            subst he'
            rw [hsd, hiss]
            exact ⟨by simp [provisionStmts], rfl⟩
        · have hg : grantAllPrivileges er ("mysqltest_" ++ randomSuffix b1)
                ("mysqltest_" ++ randomSuffix b3) =
              ([grantStmt ("mysqltest_" ++ randomSuffix b3) ("mysqltest_" ++ randomSuffix b1),
                flushStmt], Except.ok ()) := by
            simp [grantAllPrivileges, h3, h4]
          have hiss : issuedUntilFirstFailure er (provisionStmts b1 b2 b3) =
              provisionStmts b1 b2 b3 := by
            simp [issuedUntilFirstFailure, provisionStmts, h1, h2, h3, h4]
          have hff : firstFailure? er (provisionStmts b1 b2 b3) = none := by
            simp [firstFailure?, provisionStmts, h1, h2, h3, h4]
          refine ⟨?_, ?_⟩
          · rcases hq : runQueries et ((newConfig options).Queries) with ⟨tevs, r⟩
            have htevs : tevs =
                (issuedUntilFirstFailure et ((newConfig options).Queries)).map
                  Event.execTest := by
              have h := runQueries_events et ((newConfig options).Queries)
              rw [hq] at h
              exact h
            simp only [SetupDatabase, hping, hcu, hcs, hg, testUserConfig_Queries,
              testUserConfig_Addr, testUserConfig_User, testUserConfig_DBName, hq]
            rw [hiss]
            cases r <;>
              simp [htevs, rootStmts_append, rootStmts_cons_openRoot,
                rootStmts_cons_openTest, rootStmts_cons_registerTeardown,
                rootStmts_cons_registerClose, rootStmts_cons_fatal,
                rootStmts_cons_execRoot, rootStmts_map_execTest, rootStmts_map_execRoot,
                rootStmts_nil, provisionStmts]
          · intro e he
            rw [hff] at he
            exact absurd he (by simp)

/-- C5 witness: with an immediately reachable server and an all-success
oracle, the administrative statements issued are exactly the four
provisioning statements in order. -/
theorem claim5_provisioning_order_witness :
    (waitUntilDatabaseAvailable (fun _ => true)).1 = Except.ok () ∧
    rootStmts (SetupDatabase [] (fun _ => true) [0, 0, 0, 0, 0, 0, 0] [1, 1, 1, 1, 1, 1, 1]
        [2, 2, 2, 2, 2, 2, 2] (fun _ => Except.ok ()) (fun _ => Except.ok ())).1 =
      issuedUntilFirstFailure (fun _ => Except.ok ())
        (provisionStmts [0, 0, 0, 0, 0, 0, 0] [1, 1, 1, 1, 1, 1, 1] [2, 2, 2, 2, 2, 2, 2]) :=
  ⟨rfl,
   (claim5_provisioning_order [] (fun _ => true) [0, 0, 0, 0, 0, 0, 0] [1, 1, 1, 1, 1, 1, 1]
     [2, 2, 2, 2, 2, 2, 2] (fun _ => Except.ok ()) (fun _ => Except.ok ()) rfl).1⟩

/-! ### Claim C7 -/

/-- C7: once provisioning has succeeded, the configured initial statements
are executed on the scoped test connection strictly in configured order,
truncated inclusively at the first failing statement; a failing statement
aborts the run with a fatal event carrying that statement's error and no
connection is returned; when every statement succeeds the connection with
the generated identity is returned. -/
theorem claim7_initial_statements_order (options : List Opt) (ping : Nat → Bool)
    (b1 b2 b3 : List Nat) (er et : String → Except String Unit)
    (hping : (waitUntilDatabaseAvailable ping).1 = Except.ok ())
    (hroot : ∀ q, er q = Except.ok ()) :
    testStmts (SetupDatabase options ping b1 b2 b3 er et).1 =
      issuedUntilFirstFailure et ((newConfig options).Queries) ∧
    (∀ e, firstFailure? et ((newConfig options).Queries) = some e →
        (SetupDatabase options ping b1 b2 b3 er et).2 = none ∧
        (SetupDatabase options ping b1 b2 b3 er et).1 =
          (Event.openRoot (rootUserConfig options).MySQLConfig.Addr
              (rootUserConfig options).MySQLConfig.User ::
            (provisionStmts b1 b2 b3).map Event.execRoot ++
            [Event.registerTeardown,
             Event.openTest (newConfig options).MySQLConfig.Addr
               ("mysqltest_" ++ randomSuffix b1) ("mysqltest_" ++ randomSuffix b3)] ++
            (runQueries et ((newConfig options).Queries)).1) ++
            [Event.fatal ("mysqltest: " ++ e)]) ∧
    (firstFailure? et ((newConfig options).Queries) = none →
        (SetupDatabase options ping b1 b2 b3 er et).2 =
          some { Schema := "mysqltest_" ++ randomSuffix b3,
                 User := "mysqltest_" ++ randomSuffix b1,
                 Password := randomSuffix b2 }) := by
  have hsd := setup_shape_ok options ping b1 b2 b3 er et hping hroot
  have hr1 := runQueries_events et ((newConfig options).Queries)
  have hr2 := runQueries_result et ((newConfig options).Queries)
  refine ⟨?_, ?_, ?_⟩
  · rw [hsd]
    rcases hff : firstFailure? et ((newConfig options).Queries) with _ | e <;>
      rw [hff] at hr2 <;>
      simp [hr1, hr2, testStmts_append, testStmts_cons_openRoot, testStmts_cons_openTest,
        testStmts_cons_registerTeardown, testStmts_cons_registerClose, testStmts_cons_fatal,
        testStmts_map_execRoot, testStmts_map_execTest, testStmts_nil, provisionStmts,
        testStmts_cons_execRoot, testStmts_cons_execTest]
  · intro e he
    rw [he] at hr2
    rw [hsd]
    constructor
    · simp [hr2]
    · simp [hr2]
  · intro hnone
    rw [hnone] at hr2
    rw [hsd]
    simp [hr2]

/-- C7 witness: with queries [A, BAD, C] and an oracle failing exactly BAD,
the statements executed on the scoped connection are [A, BAD]. -/
theorem claim7_initial_statements_order_witness :
    (waitUntilDatabaseAvailable (fun _ => true)).1 = Except.ok () ∧
    testStmts (SetupDatabase [Query "A", Query "BAD", Query "C"] (fun _ => true)
        [0, 0, 0, 0, 0, 0, 0] [1, 1, 1, 1, 1, 1, 1] [2, 2, 2, 2, 2, 2, 2]
        (fun _ => Except.ok ())
        (fun q => if q = "BAD" then Except.error "bad statement" else Except.ok ())).1 =
      issuedUntilFirstFailure
        (fun q => if q = "BAD" then Except.error "bad statement" else Except.ok ())
        ((newConfig [Query "A", Query "BAD", Query "C"]).Queries) :=
  ⟨rfl,
   (claim7_initial_statements_order [Query "A", Query "BAD", Query "C"] (fun _ => true)
     [0, 0, 0, 0, 0, 0, 0] [1, 1, 1, 1, 1, 1, 1] [2, 2, 2, 2, 2, 2, 2]
     (fun _ => Except.ok ())
     (fun q => if q = "BAD" then Except.error "bad statement" else Except.ok ())
     rfl (fun _ => rfl)).1⟩

/-! ### Claim C2 -/

/-- C2 counterexample: the claim states the close of the scoped connection
is registered with the test-lifecycle handle even when an initial statement
fails; in src/mysqltest.go the `t.Cleanup` registering the close comes
after the query loop, so a failing initial statement aborts (`t.Fatalf`,
result `none`) with no close registration in the trace. -/
theorem claim2_counterexample :
    (SetupDatabase [Query "BOOM"] (fun _ => true)
        [0, 0, 0, 0, 0, 0, 0] [1, 1, 1, 1, 1, 1, 1] [2, 2, 2, 2, 2, 2, 2]
        (fun _ => Except.ok ()) (fun _ => Except.error "syntax error")).2 = none ∧
    Event.fatal ("mysqltest: " ++ "syntax error") ∈
      (SetupDatabase [Query "BOOM"] (fun _ => true)
        [0, 0, 0, 0, 0, 0, 0] [1, 1, 1, 1, 1, 1, 1] [2, 2, 2, 2, 2, 2, 2]
        (fun _ => Except.ok ()) (fun _ => Except.error "syntax error")).1 ∧
    Event.registerCloseTestDB ∉
      (SetupDatabase [Query "BOOM"] (fun _ => true)
        [0, 0, 0, 0, 0, 0, 0] [1, 1, 1, 1, 1, 1, 1] [2, 2, 2, 2, 2, 2, 2]
        (fun _ => Except.ok ()) (fun _ => Except.error "syntax error")).1 := by
  refine ⟨rfl, ?_, ?_⟩ <;> decide

/-- C2 amended: the close of the scoped test connection is registered with
the test-lifecycle handle only after every configured initial statement has
succeeded; when some initial statement fails, setup aborts fatally before
the close registration, leaving the scoped connection unregistered. -/
theorem claim2_close_registration (options : List Opt) (ping : Nat → Bool)
    (b1 b2 b3 : List Nat) (er et : String → Except String Unit)
    (hping : (waitUntilDatabaseAvailable ping).1 = Except.ok ())
    (hroot : ∀ q, er q = Except.ok ()) :
    Event.registerCloseTestDB ∈ (SetupDatabase options ping b1 b2 b3 er et).1 ↔
      firstFailure? et ((newConfig options).Queries) = none := by
  have hsd := setup_shape_ok options ping b1 b2 b3 er et hping hroot
  have hr1 := runQueries_events et ((newConfig options).Queries)
  have hr2 := runQueries_result et ((newConfig options).Queries)
  rw [hsd]
  rcases hff : firstFailure? et ((newConfig options).Queries) with _ | e <;>
    rw [hff] at hr2 <;>
    simp [hr1, hr2]

/-- C2 witness: with one succeeding initial statement the close registration
is present. -/
theorem claim2_close_registration_witness :
    (waitUntilDatabaseAvailable (fun _ => true)).1 = Except.ok () ∧
    (Event.registerCloseTestDB ∈
        (SetupDatabase [Query "A"] (fun _ => true) [0, 0, 0, 0, 0, 0, 0] [1, 1, 1, 1, 1, 1, 1]
          [2, 2, 2, 2, 2, 2, 2] (fun _ => Except.ok ()) (fun _ => Except.ok ())).1 ↔
      firstFailure? (fun _ => Except.ok ()) ((newConfig [Query "A"]).Queries) = none) :=
  ⟨rfl,
   claim2_close_registration [Query "A"] (fun _ => true) [0, 0, 0, 0, 0, 0, 0]
     [1, 1, 1, 1, 1, 1, 1] [2, 2, 2, 2, 2, 2, 2] (fun _ => Except.ok ())
     (fun _ => Except.ok ()) rfl (fun _ => rfl)⟩

/-! ### Claim C6 -/

/-- C6: the teardown cleanup (preserve off, administrative connection
freshly reopened) issues `DROP USER` first and `DROP DATABASE` second; when
`DROP USER` fails, `DROP DATABASE` is never issued; failure of either
`DROP` ends in a hard test failure event (`t.Fatalf`), never silently. -/
theorem claim6_teardown_order (v : Bool) (er : String → Except String Unit)
    (user schema : String) :
    (∀ e, er (dropUserStmt user) = Except.error e →
        cleanupRun false v (Except.ok ()) er user schema =
          [CEvent.openAdmin, CEvent.dropStmt (dropUserStmt user),
           CEvent.hardFail ("mysqltest: failed to teardown: " ++ e)]) ∧
    (∀ e, er (dropUserStmt user) = Except.ok () →
        er (dropDatabaseStmt schema) = Except.error e →
        cleanupRun false v (Except.ok ()) er user schema =
          [CEvent.openAdmin, CEvent.dropStmt (dropUserStmt user),
           CEvent.dropStmt (dropDatabaseStmt schema),
           CEvent.hardFail ("mysqltest: failed to teardown: " ++ e)]) ∧
    (er (dropUserStmt user) = Except.ok () → er (dropDatabaseStmt schema) = Except.ok () →
        cleanupRun false v (Except.ok ()) er user schema =
          [CEvent.openAdmin, CEvent.dropStmt (dropUserStmt user),
           CEvent.dropStmt (dropDatabaseStmt schema)]) := by
  refine ⟨?_, ?_, ?_⟩ <;> intros <;> simp [cleanupRun, teardown, *]

/-- C6 witness: an oracle failing the `DROP USER` statement yields the
one-drop trace ending in the hard failure. -/
theorem claim6_teardown_order_witness :
    (fun q => if q = dropUserStmt "u" then (Except.error "boom" : Except String Unit)
              else Except.ok ()) (dropUserStmt "u") = Except.error "boom" ∧
    cleanupRun false false (Except.ok ())
        (fun q => if q = dropUserStmt "u" then Except.error "boom" else Except.ok ())
        "u" "s" =
      [CEvent.openAdmin, CEvent.dropStmt (dropUserStmt "u"),
       CEvent.hardFail ("mysqltest: failed to teardown: " ++ "boom")] :=
  ⟨rfl, (claim6_teardown_order false _ "u" "s").1 "boom" rfl⟩

/-! ### Claim C8 -/

/-- C8: when preservation was requested, the registered cleanup issues no
`DROP` statement at all, whatever the oracle or the reopen outcome; when
the reopen succeeds it emits at most one diagnostic note (only under
`Verbose`) identifying the preserved database and user. -/
theorem claim8_preserve_no_drops (v : Bool) (openResult : Except String Unit)
    (er : String → Except String Unit) (user schema : String) :
    dropStmtsOf (cleanupRun true v openResult er user schema) = [] ∧
    cleanupRun true v (Except.ok ()) er user schema =
      CEvent.openAdmin :: (if v then [CEvent.note (preservedNote schema user)] else []) := by
  constructor
  · rcases openResult with e | w
    · rfl
    · cases v <;> rfl
  · rfl

/-! ### Claim C9 -/

/-- C9: every identifier suffix is a fixed-length string of 12 characters
derived from the 7 raw bytes read from the secure random source, and every
character is lowercase alphanumeric (safe for identifier interpolation);
when the random source is unavailable (`none`), the suffix generator
propagates the failure (the Go code panics, aborting the provisioning
attempt with no retry). -/
theorem claim9_randomSuffix_safe (bs : List Nat) (h : bs.length = 7) :
    (randomSuffix bs).length = 12 ∧
    (∀ c ∈ (randomSuffix bs).data, isLowerAlnum c = true) ∧
    randomSuffixFromSource none = none ∧
    randomSuffixFromSource (some bs) = some (randomSuffix bs) := by
  refine ⟨?_, randomSuffix_chars bs, rfl, rfl⟩
  have hl := randomSuffix_length bs
  rw [h] at hl
  simpa using hl

/-- C9 witness: the all-zero 7-byte read yields a 12-character suffix. -/
theorem claim9_randomSuffix_safe_witness :
    ([0, 0, 0, 0, 0, 0, 0] : List Nat).length = 7 ∧
    (randomSuffix [0, 0, 0, 0, 0, 0, 0]).length = 12 :=
  ⟨rfl, (claim9_randomSuffix_safe [0, 0, 0, 0, 0, 0, 0] rfl).1⟩

/-! ### Claim C10 -/

/-- C10: every generated user name and every generated database name begins
with the fixed namespace tag `mysqltest_` (src/mysqltest.go prefixes both),
so orphaned users are identifiable by the same prefix as orphaned
databases. -/
theorem claim10_generated_names_prefixed (er : String → Except String Unit)
    (b1 b2 b3 : List Nat) (u p s : String)
    (hu : (createRandomUser er b1 b2).2 = Except.ok (u, p))
    (hs : (createRandomSchema er b3).2 = Except.ok s) :
    (∃ r, u = "mysqltest_" ++ r) ∧ (∃ r, s = "mysqltest_" ++ r) := by
  constructor
  · rcases hx : er (createUserStmt ("mysqltest_" ++ randomSuffix b1) (randomSuffix b2))
        with e | w
    · simp [createRandomUser, hx] at hu
    · simp [createRandomUser, hx] at hu
      exact ⟨randomSuffix b1, hu.1.symm⟩
  · rcases hx : er (createDatabaseStmt ("mysqltest_" ++ randomSuffix b3)) with e | w
    · simp [createRandomSchema, hx] at hs
    · simp [createRandomSchema, hx] at hs
      exact ⟨randomSuffix b3, hs.symm⟩

/-- C10 witness: with an all-success oracle and concrete random bytes, both
generated names carry the `mysqltest_` prefix. -/
theorem claim10_generated_names_prefixed_witness :
    (createRandomUser (fun _ => Except.ok ()) [0, 0, 0, 0, 0, 0, 0] [1, 1, 1, 1, 1, 1, 1]).2 =
      Except.ok ("mysqltest_" ++ randomSuffix [0, 0, 0, 0, 0, 0, 0],
        randomSuffix [1, 1, 1, 1, 1, 1, 1]) ∧
    (createRandomSchema (fun _ => Except.ok ()) [2, 2, 2, 2, 2, 2, 2]).2 =
      Except.ok ("mysqltest_" ++ randomSuffix [2, 2, 2, 2, 2, 2, 2]) ∧
    ((∃ r, ("mysqltest_" ++ randomSuffix [0, 0, 0, 0, 0, 0, 0]) = "mysqltest_" ++ r) ∧
     (∃ r, ("mysqltest_" ++ randomSuffix [2, 2, 2, 2, 2, 2, 2]) = "mysqltest_" ++ r)) :=
  ⟨rfl, rfl,
   claim10_generated_names_prefixed (fun _ => Except.ok ())
     [0, 0, 0, 0, 0, 0, 0] [1, 1, 1, 1, 1, 1, 1] [2, 2, 2, 2, 2, 2, 2]
     ("mysqltest_" ++ randomSuffix [0, 0, 0, 0, 0, 0, 0]) (randomSuffix [1, 1, 1, 1, 1, 1, 1])
     ("mysqltest_" ++ randomSuffix [2, 2, 2, 2, 2, 2, 2]) rfl rfl⟩

end Mysqltest

namespace MysqltestEnv

/-! ### Claim C3 -/

/-- C3 counterexample: the claim states the preserve flag is read, like the
administrative parameters, at configuration-resolution time from an
environment variable whose name may be remapped via a dedicated option.  In
src/unnamed/part_001 it is not: two environments that differ only in the
fixed variable `PRESERVE_TEST_DB` resolve to the very same configuration
(so no preserve information is captured at resolution time, and no option
exists to remap that name), yet the registered cleanup behaves differently
under them because the flag is read from the fixed name only when the
cleanup runs. -/
theorem claim3_counterexample :
    resolveRootConfig (fun _ => "") [] =
      resolveRootConfig (fun k => if k = "PRESERVE_TEST_DB" then "1" else "") [] ∧
    cleanupRun (fun _ => "") (Except.ok ()) (fun _ => Except.ok ()) "u" "s" ≠
      cleanupRun (fun k => if k = "PRESERVE_TEST_DB" then "1" else "")
        (Except.ok ()) (fun _ => Except.ok ()) "u" "s" := by
  refine ⟨?_, ?_⟩ <;> decide

/-- C3 amended: the administrative host, port, user and password are read at
configuration-resolution time from environment variables whose names may be
remapped via the dedicated `SetHostEnv`/`SetPortEnv`/`SetRootUserEnv`/
`SetRootPasswordEnv` options, and a nonempty environment value overrides
the default (an empty/unset one leaves the default); the preserve flag,
however, is read from the environment variable with the fixed name
`PRESERVE_TEST_DB` when the registered cleanup runs (a nonempty value
suppresses every `DROP`), and is not part of the resolved configuration. -/
theorem claim3_env_overrides (env : String → String) (options : List Opt) :
    ((resolveRootConfig env options).MySQLConfig.User =
        getEnv env (newConfig options).RootUserEnv defaultMySQLRootUser ∧
     (resolveRootConfig env options).MySQLConfig.Passwd =
        getEnv env (newConfig options).RootPasswordEnv defaultMySQLRootPassword ∧
     (resolveRootConfig env options).MySQLConfig.Addr =
        joinHostPort (getEnv env (newConfig options).HostEnv defaultMySQLHost)
          (getEnv env (newConfig options).PortEnv defaultMySQLPort) ∧
     (resolveRootConfig env options).MySQLConfig.DBName = "") ∧
    (∀ name,
      (newConfig (options ++ [SetHostEnv name])).HostEnv = name ∧
      (newConfig (options ++ [SetPortEnv name])).PortEnv = name ∧
      (newConfig (options ++ [SetRootUserEnv name])).RootUserEnv = name ∧
      (newConfig (options ++ [SetRootPasswordEnv name])).RootPasswordEnv = name) ∧
    (∀ key d, env key ≠ "" → getEnv env key d = env key) ∧
    (∀ key d, env key = "" → getEnv env key d = d) ∧
    (∀ er u s, env preserveTestDBEnv ≠ "" →
        Mysqltest.dropStmtsOf (cleanupRun env (Except.ok ()) er u s) = []) := by
  refine ⟨⟨rfl, rfl, rfl, rfl⟩, ?_, ?_, ?_, ?_⟩
  · intro name
    refine ⟨?_, ?_, ?_, ?_⟩ <;>
      simp [newConfig, List.foldl_append, SetHostEnv, SetPortEnv, SetRootUserEnv,
        SetRootPasswordEnv]
  · intro key d h
    simp [getEnv, h]
  · intro key d h
    simp [getEnv, h]
  · intro er u s h
    simp [cleanupRun, h, Mysqltest.dropStmtsOf]

end MysqltestEnv
